import Mathlib

/-!
Shallow embedding of `libsyspass.py` (the `SyspassClient` class of the
syspass-ansible-vault repository) together with proofs about its behaviour.

The client builds one JSON-RPC request per method call, posts it, and
inspects the decoded JSON response.  We model JSON values, the per-instance
client state, and each method as a pure function taking the network as an
oracle `net : JsonVal → JsonVal` (request ↦ decoded response) and returning
the Python-level outcome, the new client state, and the list of requests
posted during the call.

The source targets CPython 2.7 (`#!/usr/bin/env python2`): comparisons such
as `count > 0` never raise there; the mixed-type ordering of CPython 2
(None below numbers, numbers below every other type) is modelled in
`pyGtZero`.  Unchecked dictionary accesses (`req['result']`) raise
interpreter-level `KeyError` / `TypeError` / `AttributeError`; those are
modelled by the outcome `PyRes.exn`.
-/

/-- JSON values as decoded by `req.json()`.  Floats do not occur in the
responses the client inspects and are omitted. -/
inductive JsonVal where
  | str (s : String)
  | int (n : Int)
  | bool (b : Bool)
  | null
  | arr (xs : List JsonVal)
  | obj (fields : List (String × JsonVal))

/-- `j[k]` on a Python dict: `some` the value when `j` is a dict holding the
key, `none` when the access raises (`KeyError` on a dict without the key,
`TypeError` on a non-dict). -/
def getKey (j : JsonVal) (k : String) : Option JsonVal :=
  match j with
  | .obj fields => fields.lookup k
  | _ => none

/-- Python `k in j` for the dict case.  (Membership tests on strings and
lists, which the client never reaches with a string key after a successful
`req['result']` access, are abstracted to `false`.) -/
def pyContains (j : JsonVal) (k : String) : Bool :=
  match j with
  | .obj fields => (fields.lookup k).isSome
  | _ => false

/-- Python `v == text` where `text` is a `str`: equal strings compare equal,
values of any other type compare unequal without raising. -/
def strEq (v : JsonVal) (t : String) : Bool :=
  match v with
  | .str u => u == t
  | _ => false

/-- Python `x == None`: true exactly for `None`. -/
def JsonVal.isNull : JsonVal → Bool
  | .null => true
  | _ => false

/-- `str.upper()` (ASCII, the case exercised here). -/
def pyUpper (s : String) : String :=
  .mk (s.data.map Char.toUpper)

/-- CPython 2 `v > 0`: ints compare numerically, bools as 0/1, `None` is
below every number, and every non-numeric value is above every number. -/
def pyGtZero : JsonVal → Bool
  | .int n => 0 < n
  | .bool b => b
  | .null => false
  | _ => true

/-- CPython 2 `v == 0`: ints numerically, `False == 0` is true, every other
value compares unequal without raising. -/
def pyEqZero : JsonVal → Bool
  | .int n => n == 0
  | .bool b => !b
  | _ => false

/-- Outcome of one method call:
`ret v` — normal return (`ret none` is Python `None`, including the implicit
`None` when control falls off the end of the function);
`err tag payload` — `raise AnsibleError('<tag> Error : %s' % payload)`;
`exn` — an interpreter-level exception (`KeyError`, `TypeError`,
`AttributeError`, `IndexError`). -/
inductive PyRes where
  | ret (v : Option JsonVal)
  | err (tag : String) (payload : JsonVal)
  | exn

/-- The per-instance state set up by `SyspassClient.__init__`. -/
structure SpState where
  API_KEY : String
  API_URL : String
  API_ACC_TOKPWD : String
  rId : Int

/-- `SyspassClient(API_KEY, API_URL, API_ACC_TOKPWD)`: the request counter
starts at 1. -/
def SpState.init (key url tokpwd : String) : SpState :=
  { API_KEY := key, API_URL := url, API_ACC_TOKPWD := tokpwd, rId := 1 }

/-- `res['name'] == text`: `none` when `res['name']` itself raises. -/
def nameEq (text : String) (res : JsonVal) : Option Bool :=
  match getKey res "name" with
  | some v => some (strEq v text)
  | none => none

/-- `res['name'].upper() == text.upper()`: `none` when the access raises or
`res['name']` is not a string (`.upper()` then raises `AttributeError`). -/
def nameEqUpper (text : String) (res : JsonVal) : Option Bool :=
  match getKey res "name" with
  | some (.str u) => some (pyUpper u == pyUpper text)
  | some _ => none
  | none => none

/-- The `for res in ...: if <match>: return ...` loop of the search methods:
`some true` when some element matches (scanning left to right), `some false`
when the loop completes, `none` when evaluating the condition raises. -/
def loopMatch (f : JsonVal → Option Bool) : List JsonVal → Option Bool
  | [] => some false
  | x :: rest =>
    match f x with
    | none => none
    | some true => some true
    | some false => loopMatch f rest

/-- Search-method epilogue: given that the match loop found a hit, return
`result.result[0]`; given that the loop completed, fall off the end of the
function (Python returns `None`). -/
def searchLoopRes (f : JsonVal → Option Bool) (xs : List JsonVal) : PyRes :=
  match loopMatch f xs with
  | none => .exn
  | some true =>
    match xs with
    | [] => .exn
    | x :: _ => .ret (some x)
  | some false => .ret none

/-- Shared shape of the bodies of `CategorySearch`, `ClientSearch`,
`TagSearch` and `UserGroupSearch` after `req = req.json()`:
`if req['result']['count'] > 0: for res in req['result']['result']: ...`
`elif 'error' in req: raise AnsibleError('<tag> Error : %s' % req['error'])`
`else: return None`. -/
def searchBody (tag : String) (f : JsonVal → Option Bool) (req : JsonVal) : PyRes :=
  match getKey req "result" with
  | none => .exn
  | some r =>
    match getKey r "count" with
    | none => .exn
    | some c =>
      if pyGtZero c then
        match getKey r "result" with
        | some (.arr xs) => searchLoopRes f xs
        | _ => .exn
      else if pyContains req "error" then
        .err tag ((getKey req "error").getD .null)
      else
        .ret none

/-- Shared shape of the bodies of the create methods:
`if req['result']['itemId'] > 0: return req['result']`
`else: raise AnsibleError('<tag> Error : %s' % (req))`. -/
def createBody (tag : String) (req : JsonVal) : PyRes :=
  match getKey req "result" with
  | none => .exn
  | some r =>
    match getKey r "itemId" with
    | none => .exn
    | some i => if pyGtZero i then .ret (some r) else .err tag req

/-- Shared shape of the bodies of the delete methods:
`if req['result']['resultCode'] == 0: return req['result']`
`else: raise AnsibleError('<tag> Error : %s' % (req))`. -/
def deleteBody (tag : String) (req : JsonVal) : PyRes :=
  match getKey req "result" with
  | none => .exn
  | some r =>
    match getKey r "resultCode" with
    | none => .exn
    | some c => if pyEqZero c then .ret (some r) else .err tag req

namespace SyspassClient

/-- `AccountSearch(self, text, count, categoryId, clientId, matchAll)`:
builds the `account/search` request with the current `rId`, increments
`rId`, posts once, then scans `result.result` for an exact name match when
`matchAll` is `None` and returns the whole list otherwise. -/
def AccountSearch (net : JsonVal → JsonVal) (s : SpState) (text : String)
    (count categoryId clientId matchAll : JsonVal) :
    PyRes × SpState × List JsonVal :=
  let data : JsonVal := .obj [
    ("jsonrpc", .str "2.0"),
    ("method", .str "account/search"),
    ("params", .obj [
      ("authToken", .str s.API_KEY),
      ("text", .str text),
      ("count", count),
      ("categoryId", categoryId),
      ("clientId", clientId)]),
    ("id", .int s.rId)]
  let req := net data
  let res : PyRes :=
    match getKey req "result" with
    | none => .exn
    | some r =>
      match getKey r "count" with
      | none => .exn
      | some c =>
        if pyGtZero c then
          if matchAll.isNull then
            match getKey r "result" with
            | some (.arr xs) => searchLoopRes (nameEq text) xs
            | _ => .exn
          else
            match getKey r "result" with
            | some v => .ret (some v)
            | none => .exn
        else if pyContains req "error" then
          .err "AccountSearch" req
        else
          .ret none
  (res, { s with rId := s.rId + 1 }, [data])

/-- `AccountViewpass(self, uId)`: posts `account/viewPass` and returns
`result.result.password` when `result.count > 0`, raising otherwise with
the raw response. -/
def AccountViewpass (net : JsonVal → JsonVal) (s : SpState) (uId : JsonVal) :
    PyRes × SpState × List JsonVal :=
  let data : JsonVal := .obj [
    ("jsonrpc", .str "2.0"),
    ("method", .str "account/viewPass"),
    ("params", .obj [
      ("authToken", .str s.API_KEY),
      ("id", uId),
      ("tokenPass", .str s.API_ACC_TOKPWD)]),
    ("id", .int s.rId)]
  let req := net data
  let res : PyRes :=
    match getKey req "result" with
    | none => .exn
    | some r =>
      match getKey r "count" with
      | none => .exn
      | some c =>
        if pyGtZero c then
          match getKey r "result" with
          | none => .exn
          | some rr =>
            match getKey rr "password" with
            | none => .exn
            | some p => .ret (some p)
        else .err "AccountViewpass" req
  (res, { s with rId := s.rId + 1 }, [data])

/-- `AccountCreate(self, name, categoryId, clientId, password, login, url,
tags, notes, private, privateGroup, userGroupId, expireDate, parentId)`:
posts `account/create` and returns `result` when `result.itemId > 0`. -/
def AccountCreate (net : JsonVal → JsonVal) (s : SpState)
    (name : String) (categoryId clientId : JsonVal) (password : String)
    (login url tags notes priv privateGroup userGroupId expireDate parentId : JsonVal) :
    PyRes × SpState × List JsonVal :=
  let data : JsonVal := .obj [
    ("jsonrpc", .str "2.0"),
    ("method", .str "account/create"),
    ("params", .obj [
      ("authToken", .str s.API_KEY),
      ("tokenPass", .str s.API_ACC_TOKPWD),
      ("name", .str name),
      ("categoryId", categoryId),
      ("clientId", clientId),
      ("userGroupId", userGroupId),
      ("pass", .str password),
      ("login", login),
      ("url", url),
      ("tagsId", tags),
      ("notes", notes),
      ("private", priv),
      ("privateGroup", privateGroup),
      ("expireDate", expireDate),
      ("parentId", parentId)]),
    ("id", .int s.rId)]
  let req := net data
  (createBody "AccountCreate" req, { s with rId := s.rId + 1 }, [data])

/-- `AccountDelete(self, uId)`: posts `account/delete` and returns `result`
when `result.resultCode == 0`. -/
def AccountDelete (net : JsonVal → JsonVal) (s : SpState) (uId : JsonVal) :
    PyRes × SpState × List JsonVal :=
  let data : JsonVal := .obj [
    ("jsonrpc", .str "2.0"),
    ("method", .str "account/delete"),
    ("params", .obj [
      ("authToken", .str s.API_KEY),
      ("id", uId),
      ("tokenPass", .str s.API_ACC_TOKPWD)]),
    ("id", .int s.rId)]
  let req := net data
  (deleteBody "AccountDelete" req, { s with rId := s.rId + 1 }, [data])

/-- `AccountView(self, uId)`: posts `account/view` and returns
`result.result` when `result.count > 0`, raising otherwise with the raw
response. -/
def AccountView (net : JsonVal → JsonVal) (s : SpState) (uId : JsonVal) :
    PyRes × SpState × List JsonVal :=
  let data : JsonVal := .obj [
    ("jsonrpc", .str "2.0"),
    ("method", .str "account/view"),
    ("params", .obj [
      ("authToken", .str s.API_KEY),
      ("id", uId)]),
    ("id", .int s.rId)]
  let req := net data
  let res : PyRes :=
    match getKey req "result" with
    | none => .exn
    | some r =>
      match getKey r "count" with
      | none => .exn
      | some c =>
        if pyGtZero c then
          match getKey r "result" with
          | none => .exn
          | some rr => .ret (some rr)
        else .err "AccountView" req
  (res, { s with rId := s.rId + 1 }, [data])

/-- `CategorySearch(self, text, count)`: posts `category/search`; the match
is exact (`res['name'] == text`) and the error payload is `req['error']`. -/
def CategorySearch (net : JsonVal → JsonVal) (s : SpState) (text : String)
    (count : JsonVal) : PyRes × SpState × List JsonVal :=
  let data : JsonVal := .obj [
    ("jsonrpc", .str "2.0"),
    ("method", .str "category/search"),
    ("params", .obj [
      ("authToken", .str s.API_KEY),
      ("text", .str text),
      ("count", count)]),
    ("id", .int s.rId)]
  let req := net data
  (searchBody "CategorySearch" (nameEq text) req, { s with rId := s.rId + 1 }, [data])

/-- `CategoryCreate(self, name, description)`: posts `category/create`. -/
def CategoryCreate (net : JsonVal → JsonVal) (s : SpState) (name : String)
    (description : JsonVal) : PyRes × SpState × List JsonVal :=
  let data : JsonVal := .obj [
    ("jsonrpc", .str "2.0"),
    ("method", .str "category/create"),
    ("params", .obj [
      ("authToken", .str s.API_KEY),
      ("name", .str name),
      ("description", description)]),
    ("id", .int s.rId)]
  let req := net data
  (createBody "CategoryCreate" req, { s with rId := s.rId + 1 }, [data])

/-- `CategoryDelete(self, Id)`: posts `category/delete`. -/
def CategoryDelete (net : JsonVal → JsonVal) (s : SpState) (cId : JsonVal) :
    PyRes × SpState × List JsonVal :=
  let data : JsonVal := .obj [
    ("jsonrpc", .str "2.0"),
    ("method", .str "category/delete"),
    ("params", .obj [
      ("authToken", .str s.API_KEY),
      ("id", cId)]),
    ("id", .int s.rId)]
  let req := net data
  (deleteBody "CategoryDelete" req, { s with rId := s.rId + 1 }, [data])

/-- `ClientSearch(self, text, count)`: posts `client/search`; the match is
case-insensitive (`res['name'].upper() == text.upper()`). -/
def ClientSearch (net : JsonVal → JsonVal) (s : SpState) (text : String)
    (count : JsonVal) : PyRes × SpState × List JsonVal :=
  let data : JsonVal := .obj [
    ("jsonrpc", .str "2.0"),
    ("method", .str "client/search"),
    ("params", .obj [
      ("authToken", .str s.API_KEY),
      ("text", .str text),
      ("count", count)]),
    ("id", .int s.rId)]
  let req := net data
  (searchBody "ClientSearch" (nameEqUpper text) req, { s with rId := s.rId + 1 }, [data])

/-- `ClientCreate(self, name, description, Global)`: posts `client/create`. -/
def ClientCreate (net : JsonVal → JsonVal) (s : SpState) (name : String)
    (description g : JsonVal) : PyRes × SpState × List JsonVal :=
  let data : JsonVal := .obj [
    ("jsonrpc", .str "2.0"),
    ("method", .str "client/create"),
    ("params", .obj [
      ("authToken", .str s.API_KEY),
      ("name", .str name),
      ("description", description),
      ("global", g)]),
    ("id", .int s.rId)]
  let req := net data
  (createBody "ClientCreate" req, { s with rId := s.rId + 1 }, [data])

/-- `ClientDelete(self, cId)`: posts `client/delete`. -/
def ClientDelete (net : JsonVal → JsonVal) (s : SpState) (cId : JsonVal) :
    PyRes × SpState × List JsonVal :=
  let data : JsonVal := .obj [
    ("jsonrpc", .str "2.0"),
    ("method", .str "client/delete"),
    ("params", .obj [
      ("authToken", .str s.API_KEY),
      ("id", cId)]),
    ("id", .int s.rId)]
  let req := net data
  (deleteBody "ClientDelete" req, { s with rId := s.rId + 1 }, [data])

/-- `TagCreate(self, name)`: posts `tag/create`. -/
def TagCreate (net : JsonVal → JsonVal) (s : SpState) (name : String) :
    PyRes × SpState × List JsonVal :=
  let data : JsonVal := .obj [
    ("jsonrpc", .str "2.0"),
    ("method", .str "tag/create"),
    ("params", .obj [
      ("authToken", .str s.API_KEY),
      ("name", .str name)]),
    ("id", .int s.rId)]
  let req := net data
  (createBody "TagCreate" req, { s with rId := s.rId + 1 }, [data])

/-- `TagSearch(self, text, count)`: posts `tag/search`; the match is
case-insensitive (`res['name'].upper() == text.upper()`). -/
def TagSearch (net : JsonVal → JsonVal) (s : SpState) (text : String)
    (count : JsonVal) : PyRes × SpState × List JsonVal :=
  let data : JsonVal := .obj [
    ("jsonrpc", .str "2.0"),
    ("method", .str "tag/search"),
    ("params", .obj [
      ("authToken", .str s.API_KEY),
      ("text", .str text),
      ("count", count)]),
    ("id", .int s.rId)]
  let req := net data
  (searchBody "TagSearch" (nameEqUpper text) req, { s with rId := s.rId + 1 }, [data])

/-- `TagDelete(self, tId)`: posts `tag/delete`. -/
def TagDelete (net : JsonVal → JsonVal) (s : SpState) (tId : JsonVal) :
    PyRes × SpState × List JsonVal :=
  let data : JsonVal := .obj [
    ("jsonrpc", .str "2.0"),
    ("method", .str "tag/delete"),
    ("params", .obj [
      ("authToken", .str s.API_KEY),
      ("id", tId)]),
    ("id", .int s.rId)]
  let req := net data
  (deleteBody "TagDelete" req, { s with rId := s.rId + 1 }, [data])

/-- `UserGroupCreate(self, name, description)`: posts `userGroup/create`. -/
def UserGroupCreate (net : JsonVal → JsonVal) (s : SpState) (name : String)
    (description : JsonVal) : PyRes × SpState × List JsonVal :=
  let data : JsonVal := .obj [
    ("jsonrpc", .str "2.0"),
    ("method", .str "userGroup/create"),
    ("params", .obj [
      ("authToken", .str s.API_KEY),
      ("name", .str name),
      ("description", description)]),
    ("id", .int s.rId)]
  let req := net data
  (createBody "UserGroupCreate" req, { s with rId := s.rId + 1 }, [data])

/-- `UserGroupSearch(self, text, count)`: posts `userGroup/search`; the
match is case-insensitive (`res['name'].upper() == text.upper()`). -/
def UserGroupSearch (net : JsonVal → JsonVal) (s : SpState) (text : String)
    (count : JsonVal) : PyRes × SpState × List JsonVal :=
  let data : JsonVal := .obj [
    ("jsonrpc", .str "2.0"),
    ("method", .str "userGroup/search"),
    ("params", .obj [
      ("authToken", .str s.API_KEY),
      ("text", .str text),
      ("count", count)]),
    ("id", .int s.rId)]
  let req := net data
  (searchBody "UserGroupSearch" (nameEqUpper text) req, { s with rId := s.rId + 1 }, [data])

/-- `UserGroupDelete(self, ugId)`: posts `userGroup/delete`. -/
def UserGroupDelete (net : JsonVal → JsonVal) (s : SpState) (ugId : JsonVal) :
    PyRes × SpState × List JsonVal :=
  let data : JsonVal := .obj [
    ("jsonrpc", .str "2.0"),
    ("method", .str "userGroup/delete"),
    ("params", .obj [
      ("authToken", .str s.API_KEY),
      ("id", ugId)]),
    ("id", .int s.rId)]
  let req := net data
  (deleteBody "UserGroupDelete" req, { s with rId := s.rId + 1 }, [data])

/-- `Backup(self)`: posts `backup`; returns `result` when the response has
a `result` key, raising otherwise with the raw response. -/
def Backup (net : JsonVal → JsonVal) (s : SpState) :
    PyRes × SpState × List JsonVal :=
  let data : JsonVal := .obj [
    ("jsonrpc", .str "2.0"),
    ("method", .str "backup"),
    ("params", .obj [
      ("authToken", .str s.API_KEY)]),
    ("id", .int s.rId)]
  let req := net data
  let res : PyRes :=
    if pyContains req "result" then
      match getKey req "result" with
      | some r => .ret (some r)
      | none => .exn
    else
      .err "Backup" req
  (res, { s with rId := s.rId + 1 }, [data])

end SyspassClient

/-- One method call of `SyspassClient`, with its arguments. -/
inductive Op where
  | accountSearch (text : String) (count categoryId clientId matchAll : JsonVal)
  | accountViewpass (uId : JsonVal)
  | accountCreate (name : String) (categoryId clientId : JsonVal) (password : String)
      (login url tags notes priv privateGroup userGroupId expireDate parentId : JsonVal)
  | accountDelete (uId : JsonVal)
  | accountView (uId : JsonVal)
  | categorySearch (text : String) (count : JsonVal)
  | categoryCreate (name : String) (description : JsonVal)
  | categoryDelete (cId : JsonVal)
  | clientSearch (text : String) (count : JsonVal)
  | clientCreate (name : String) (description g : JsonVal)
  | clientDelete (cId : JsonVal)
  | tagCreate (name : String)
  | tagSearch (text : String) (count : JsonVal)
  | tagDelete (tId : JsonVal)
  | userGroupCreate (name : String) (description : JsonVal)
  | userGroupSearch (text : String) (count : JsonVal)
  | userGroupDelete (ugId : JsonVal)
  | backup

/-- Dispatch one method call against the network oracle `net`. -/
def Op.run (op : Op) (net : JsonVal → JsonVal) (s : SpState) :
    PyRes × SpState × List JsonVal :=
  match op with
  | .accountSearch text count categoryId clientId matchAll =>
      SyspassClient.AccountSearch net s text count categoryId clientId matchAll
  | .accountViewpass uId => SyspassClient.AccountViewpass net s uId
  | .accountCreate name categoryId clientId password login url tags notes priv pg ug ed pid =>
      SyspassClient.AccountCreate net s name categoryId clientId password login url tags notes priv pg ug ed pid
  | .accountDelete uId => SyspassClient.AccountDelete net s uId
  | .accountView uId => SyspassClient.AccountView net s uId
  | .categorySearch text count => SyspassClient.CategorySearch net s text count
  | .categoryCreate name description => SyspassClient.CategoryCreate net s name description
  | .categoryDelete cId => SyspassClient.CategoryDelete net s cId
  | .clientSearch text count => SyspassClient.ClientSearch net s text count
  | .clientCreate name description g => SyspassClient.ClientCreate net s name description g
  | .clientDelete cId => SyspassClient.ClientDelete net s cId
  | .tagCreate name => SyspassClient.TagCreate net s name
  | .tagSearch text count => SyspassClient.TagSearch net s text count
  | .tagDelete tId => SyspassClient.TagDelete net s tId
  | .userGroupCreate name description => SyspassClient.UserGroupCreate net s name description
  | .userGroupSearch text count => SyspassClient.UserGroupSearch net s text count
  | .userGroupDelete ugId => SyspassClient.UserGroupDelete net s ugId
  | .backup => SyspassClient.Backup net s

/-- Run a sequence of method calls on one client instance, threading the
state. -/
def Op.runSeq (net : JsonVal → JsonVal) : List Op → SpState → SpState
  | [], s => s
  | op :: rest, s => Op.runSeq net rest (Op.run op net s).2.1

/-- Modelled from the spec: the password-generation helper is not among the
provided sources (`libsyspass.py` imports `random_password` from
`ansible.utils.encrypt`; the `LookupModule` calling it is absent).  Spec §1:
"generation of a random password obeying character-class and length
constraints" is "a few lines of bounded random sampling".  The requested
character classes are given as lists of characters; the sampling alphabet
is their union. -/
def classAlphabet (classes : List (List Char)) : List Char :=
  classes.flatten

/-- Modelled from the spec: bounded random sampling of `len` characters
from the alphabet of the selected classes; `rand` is the random source,
each draw reduced modulo the alphabet size. -/
def random_password (classes : List (List Char)) (len : Nat) (rand : Nat → Nat) : String :=
  .mk ((List.range len).map
    (fun i => (classAlphabet classes).getD (rand i % (classAlphabet classes).length) 'a'))

/-! ### Helper lemmas -/

theorem pyContains_of_getKey {j v : JsonVal} {k : String}
    (h : getKey j k = some v) : pyContains j k = true := by
  cases j <;> simp_all [getKey, pyContains]

theorem loopMatch_all_false {f : JsonVal → Option Bool} {xs : List JsonVal}
    (h : ∀ x ∈ xs, f x = some false) : loopMatch f xs = some false := by
  induction xs with
  | nil => rfl
  | cons x rest ih =>
    have hx := h x (by simp)
    simp only [loopMatch, hx]
    exact ih fun y hy => h y (by simp [hy])

theorem loopMatch_true {f : JsonVal → Option Bool} {xs : List JsonVal}
    (hdef : ∀ x ∈ xs, (f x).isSome)
    (hex : ∃ x ∈ xs, f x = some true) : loopMatch f xs = some true := by
  induction xs with
  | nil => simp at hex
  | cons x rest ih =>
    have hx := hdef x (by simp)
    simp only [loopMatch]
    cases hfx : f x with
    | none => rw [hfx] at hx; simp at hx
    | some b =>
      cases b with
      | true => rfl
      | false =>
        apply ih
        · exact fun y hy => hdef y (by simp [hy])
        · rcases hex with ⟨y, hy, hfy⟩
          rcases List.mem_cons.mp hy with rfl | hy'
          · rw [hfy] at hfx; cases hfx
          · exact ⟨y, hy', hfy⟩

theorem createBody_spec (tag : String) (resp r : JsonVal) (i : Int)
    (hres : getKey resp "result" = some r)
    (hitem : getKey r "itemId" = some (.int i)) :
    (createBody tag resp = .ret (some r) ↔ 0 < i) ∧
    (¬ 0 < i → createBody tag resp = .err tag resp) := by
  by_cases h : 0 < i <;> simp [createBody, hres, hitem, pyGtZero, h]

theorem deleteBody_spec (tag : String) (resp r : JsonVal) (c : Int)
    (hres : getKey resp "result" = some r)
    (hcode : getKey r "resultCode" = some (.int c)) :
    (deleteBody tag resp = .ret (some r) ↔ c = 0) ∧
    (c ≠ 0 → deleteBody tag resp = .err tag resp) := by
  by_cases h : c = 0 <;> simp [deleteBody, hres, hcode, pyEqZero, h]

theorem searchLoopRes_no_match {f : JsonVal → Option Bool} {xs : List JsonVal}
    (h : ∀ x ∈ xs, f x = some false) : searchLoopRes f xs = .ret none := by
  simp [searchLoopRes, loopMatch_all_false h]

theorem searchLoopRes_match {f : JsonVal → Option Bool} {xs : List JsonVal}
    (hdef : ∀ x ∈ xs, (f x).isSome)
    (hex : ∃ x ∈ xs, f x = some true) : searchLoopRes f xs = .ret xs.head? := by
  have hl := loopMatch_true hdef hex
  cases xs with
  | nil => simp at hex
  | cons x rest => simp [searchLoopRes, hl]

theorem searchBody_err {tag : String} {f : JsonVal → Option Bool}
    {resp r e : JsonVal} {c : Int}
    (hres : getKey resp "result" = some r)
    (hcount : getKey r "count" = some (.int c)) (hc : c ≤ 0)
    (herr : getKey resp "error" = some e) :
    searchBody tag f resp = .err tag e := by
  have hnc : ¬ (0:Int) < c := by omega
  simp [searchBody, hres, hcount, pyGtZero, hnc, pyContains_of_getKey herr, herr]

theorem searchBody_no_match {tag : String} {f : JsonVal → Option Bool}
    {resp r : JsonVal} {c : Int} {xs : List JsonVal}
    (hres : getKey resp "result" = some r)
    (hcount : getKey r "count" = some (.int c)) (hc : 0 < c)
    (hlist : getKey r "result" = some (.arr xs))
    (hall : ∀ x ∈ xs, f x = some false) :
    searchBody tag f resp = .ret none := by
  simp [searchBody, hres, hcount, pyGtZero, hc, hlist, searchLoopRes_no_match hall]

theorem searchBody_match {tag : String} {f : JsonVal → Option Bool}
    {resp r : JsonVal} {c : Int} {xs : List JsonVal}
    (hres : getKey resp "result" = some r)
    (hcount : getKey r "count" = some (.int c)) (hc : 0 < c)
    (hlist : getKey r "result" = some (.arr xs))
    (hdef : ∀ x ∈ xs, (f x).isSome)
    (hex : ∃ x ∈ xs, f x = some true) :
    searchBody tag f resp = .ret xs.head? := by
  simp [searchBody, hres, hcount, pyGtZero, hc, hlist, searchLoopRes_match hdef hex]

/-- `AccountSearch`'s response handling is written inline in the source; in
the `matchAll == None` case it coincides with the shared search shape with
`AccountSearch` as tag, except that the raised error carries the raw
response rather than `req['error']`. -/
theorem accountSearch_body_eq (net : JsonVal → JsonVal) (s : SpState)
    (text : String) (count categoryId clientId : JsonVal) (resp r : JsonVal)
    (hnet : ∀ d, net d = resp)
    (hres : getKey resp "result" = some r) :
    (SyspassClient.AccountSearch net s text count categoryId clientId .null).1 =
      match getKey r "count" with
      | none => .exn
      | some c =>
        if pyGtZero c then
          match getKey r "result" with
          | some (.arr xs) => searchLoopRes (nameEq text) xs
          | _ => .exn
        else if pyContains resp "error" then
          .err "AccountSearch" resp
        else
          .ret none := by
  simp [SyspassClient.AccountSearch, hnet, hres, JsonVal.isNull]

/-! ### Concrete fixtures used by witness and counterexample theorems -/

def wState : SpState := SpState.init "k" "http://vault/api.php" "t"

def wCreateRes : JsonVal := .obj [("itemId", .int 7), ("resultCode", .int 0)]

def wCreateResp : JsonVal :=
  .obj [("jsonrpc", .str "2.0"), ("result", wCreateRes), ("id", .int 1)]

/-! ### Claims -/

/-- C4: for every create operation (AccountCreate, CategoryCreate,
ClientCreate, TagCreate, UserGroupCreate) and every JSON response whose
`result.itemId` is an integer, the operation returns the response's
`result` object if and only if `result.itemId > 0`, and otherwise raises
`AnsibleError` carrying the raw response. -/
theorem create_ops_return_iff_itemId_pos
    (s : SpState) (resp r : JsonVal) (i : Int)
    (name : String) (categoryId clientId : JsonVal) (password : String)
    (login url tags notes priv privateGroup userGroupId expireDate parentId
      description g : JsonVal)
    (hres : getKey resp "result" = some r)
    (hitem : getKey r "itemId" = some (.int i)) :
    (((SyspassClient.AccountCreate (fun _ => resp) s name categoryId clientId
        password login url tags notes priv privateGroup userGroupId expireDate
        parentId).1 = .ret (some r) ↔ 0 < i) ∧
      (¬ 0 < i → (SyspassClient.AccountCreate (fun _ => resp) s name categoryId
        clientId password login url tags notes priv privateGroup userGroupId
        expireDate parentId).1 = .err "AccountCreate" resp)) ∧
    (((SyspassClient.CategoryCreate (fun _ => resp) s name description).1
        = .ret (some r) ↔ 0 < i) ∧
      (¬ 0 < i → (SyspassClient.CategoryCreate (fun _ => resp) s name
        description).1 = .err "CategoryCreate" resp)) ∧
    (((SyspassClient.ClientCreate (fun _ => resp) s name description g).1
        = .ret (some r) ↔ 0 < i) ∧
      (¬ 0 < i → (SyspassClient.ClientCreate (fun _ => resp) s name description
        g).1 = .err "ClientCreate" resp)) ∧
    (((SyspassClient.TagCreate (fun _ => resp) s name).1
        = .ret (some r) ↔ 0 < i) ∧
      (¬ 0 < i → (SyspassClient.TagCreate (fun _ => resp) s name).1
        = .err "TagCreate" resp)) ∧
    (((SyspassClient.UserGroupCreate (fun _ => resp) s name description).1
        = .ret (some r) ↔ 0 < i) ∧
      (¬ 0 < i → (SyspassClient.UserGroupCreate (fun _ => resp) s name
        description).1 = .err "UserGroupCreate" resp)) :=
  ⟨createBody_spec "AccountCreate" resp r i hres hitem,
   createBody_spec "CategoryCreate" resp r i hres hitem,
   createBody_spec "ClientCreate" resp r i hres hitem,
   createBody_spec "TagCreate" resp r i hres hitem,
   createBody_spec "UserGroupCreate" resp r i hres hitem⟩

/-- Witness for C4: on a concrete response with `result.itemId = 7`,
`TagCreate` returns the `result` object. -/
theorem create_ops_return_iff_itemId_pos_witness :
    (SyspassClient.TagCreate (fun _ => wCreateResp) wState "n").1
      = .ret (some wCreateRes) :=
  ((create_ops_return_iff_itemId_pos wState wCreateResp wCreateRes 7 "n"
      .null .null "p" .null .null .null .null .null .null .null .null .null
      .null .null rfl rfl).2.2.2.1.1).mpr (by decide)

def wErrVal : JsonVal := .obj [("code", .int (-32602))]

def wErrMatchResp : JsonVal :=
  .obj [
    ("result", .obj [("count", .int 1),
                     ("result", .arr [.obj [("name", .str "abc")]])]),
    ("error", wErrVal)]

def wErrNoCountResp : JsonVal :=
  .obj [("result", .obj [("count", .int 0)]), ("error", wErrVal)]

/-- C1 (counterexample): a response that carries an `error` key together
with `result.count = 1` and a matching entry makes `CategorySearch` return
the entry normally instead of raising: the error branch is only reached
when `result.count` is not greater than zero. -/
theorem search_error_key_not_always_raised :
    pyContains wErrMatchResp "error" = true ∧
    (SyspassClient.CategorySearch (fun _ => wErrMatchResp) wState "abc" .null).1
      = .ret (some (.obj [("name", .str "abc")])) ∧
    (SyspassClient.CategorySearch (fun _ => wErrMatchResp) wState "abc" .null).1
      ≠ .err "CategorySearch" wErrVal :=
  ⟨rfl, rfl, fun h => nomatch h⟩

/-- C1 (amended): for every search operation, when the response's
`result.count` is an integer not greater than zero and the response carries
an `error` key, the operation raises `AnsibleError` — with the raw response
as payload for `AccountSearch` and the response's `error` value for
`CategorySearch`, `ClientSearch`, `TagSearch` and `UserGroupSearch`. -/
theorem search_ops_error_branch
    (s : SpState) (resp r e : JsonVal) (c : Int) (text : String)
    (count categoryId clientId matchAll : JsonVal)
    (hres : getKey resp "result" = some r)
    (hcount : getKey r "count" = some (.int c)) (hc : c ≤ 0)
    (herr : getKey resp "error" = some e) :
    (SyspassClient.AccountSearch (fun _ => resp) s text count categoryId
        clientId matchAll).1 = .err "AccountSearch" resp ∧
    (SyspassClient.CategorySearch (fun _ => resp) s text count).1
      = .err "CategorySearch" e ∧
    (SyspassClient.ClientSearch (fun _ => resp) s text count).1
      = .err "ClientSearch" e ∧
    (SyspassClient.TagSearch (fun _ => resp) s text count).1
      = .err "TagSearch" e ∧
    (SyspassClient.UserGroupSearch (fun _ => resp) s text count).1
      = .err "UserGroupSearch" e := by
  have hnc : ¬ (0:Int) < c := by omega
  refine ⟨?_, searchBody_err hres hcount hc herr,
    searchBody_err hres hcount hc herr, searchBody_err hres hcount hc herr,
    searchBody_err hres hcount hc herr⟩
  simp [SyspassClient.AccountSearch, hres, hcount, pyGtZero, hnc,
    pyContains_of_getKey herr]

/-- Witness for the amended C1: a concrete response with `result.count = 0`
and an `error` object makes `TagSearch` raise with the error value. -/
theorem search_ops_error_branch_witness :
    (SyspassClient.TagSearch (fun _ => wErrNoCountResp) wState "x" .null).1
      = .err "TagSearch" wErrVal :=
  (search_ops_error_branch wState wErrNoCountResp (.obj [("count", .int 0)])
    wErrVal 0 "x" .null .null .null .null rfl rfl (by decide) rfl).2.2.2.1

/-- C10: for every search operation (AccountSearch with matchAll = None,
CategorySearch, ClientSearch, TagSearch, UserGroupSearch), when
`result.count > 0` but no entry's name matches the search text, the
operation falls off the end of its body and returns Python `None` without
raising — even when the response also carries an `error` key. -/
theorem search_ops_no_match_returns_none
    (s : SpState) (resp r e : JsonVal) (c : Int) (xs : List JsonVal)
    (text : String) (count categoryId clientId : JsonVal)
    (hres : getKey resp "result" = some r)
    (hcount : getKey r "count" = some (.int c)) (hc : 0 < c)
    (hlist : getKey r "result" = some (.arr xs))
    (_herr : getKey resp "error" = some e)
    (hexact : ∀ x ∈ xs, nameEq text x = some false)
    (hupper : ∀ x ∈ xs, nameEqUpper text x = some false) :
    (SyspassClient.AccountSearch (fun _ => resp) s text count categoryId
        clientId .null).1 = .ret none ∧
    (SyspassClient.CategorySearch (fun _ => resp) s text count).1 = .ret none ∧
    (SyspassClient.ClientSearch (fun _ => resp) s text count).1 = .ret none ∧
    (SyspassClient.TagSearch (fun _ => resp) s text count).1 = .ret none ∧
    (SyspassClient.UserGroupSearch (fun _ => resp) s text count).1
      = .ret none := by
  refine ⟨?_, searchBody_no_match hres hcount hc hlist hexact,
    searchBody_no_match hres hcount hc hlist hupper,
    searchBody_no_match hres hcount hc hlist hupper,
    searchBody_no_match hres hcount hc hlist hupper⟩
  rw [accountSearch_body_eq _ _ _ _ _ _ _ _ (fun _ => rfl) hres]
  simp [hcount, pyGtZero, hc, hlist, searchLoopRes_no_match hexact]

def wNoMatchResp : JsonVal :=
  .obj [
    ("result", .obj [("count", .int 1),
                     ("result", .arr [.obj [("name", .str "other")]])]),
    ("error", wErrVal)]

/-- Witness for C10: a concrete response with one non-matching entry and an
`error` key still makes `UserGroupSearch` return `None`. -/
theorem search_ops_no_match_returns_none_witness :
    (SyspassClient.UserGroupSearch (fun _ => wNoMatchResp) wState "x" .null).1
      = .ret none :=
  (search_ops_no_match_returns_none wState wNoMatchResp
    (.obj [("count", .int 1),
           ("result", .arr [.obj [("name", .str "other")]])])
    wErrVal 1 [.obj [("name", .str "other")]] "x" .null .null .null
    rfl rfl (by decide) rfl rfl
    (by intro x hx; simp only [List.mem_singleton] at hx; subst hx; decide)
    (by intro x hx; simp only [List.mem_singleton] at hx; subst hx; decide)).2.2.2.2

/-- C5: for every delete operation (AccountDelete, CategoryDelete,
ClientDelete, TagDelete, UserGroupDelete) and every JSON response whose
`result.resultCode` is an integer, the operation returns the response's
`result` object if and only if `result.resultCode == 0`, and otherwise
raises `AnsibleError` carrying the raw response. -/
theorem delete_ops_return_iff_resultCode_zero
    (s : SpState) (resp r : JsonVal) (c : Int) (dId : JsonVal)
    (hres : getKey resp "result" = some r)
    (hcode : getKey r "resultCode" = some (.int c)) :
    (((SyspassClient.AccountDelete (fun _ => resp) s dId).1 = .ret (some r)
        ↔ c = 0) ∧
      (c ≠ 0 → (SyspassClient.AccountDelete (fun _ => resp) s dId).1
        = .err "AccountDelete" resp)) ∧
    (((SyspassClient.CategoryDelete (fun _ => resp) s dId).1 = .ret (some r)
        ↔ c = 0) ∧
      (c ≠ 0 → (SyspassClient.CategoryDelete (fun _ => resp) s dId).1
        = .err "CategoryDelete" resp)) ∧
    (((SyspassClient.ClientDelete (fun _ => resp) s dId).1 = .ret (some r)
        ↔ c = 0) ∧
      (c ≠ 0 → (SyspassClient.ClientDelete (fun _ => resp) s dId).1
        = .err "ClientDelete" resp)) ∧
    (((SyspassClient.TagDelete (fun _ => resp) s dId).1 = .ret (some r)
        ↔ c = 0) ∧
      (c ≠ 0 → (SyspassClient.TagDelete (fun _ => resp) s dId).1
        = .err "TagDelete" resp)) ∧
    (((SyspassClient.UserGroupDelete (fun _ => resp) s dId).1 = .ret (some r)
        ↔ c = 0) ∧
      (c ≠ 0 → (SyspassClient.UserGroupDelete (fun _ => resp) s dId).1
        = .err "UserGroupDelete" resp)) :=
  ⟨deleteBody_spec "AccountDelete" resp r c hres hcode,
   deleteBody_spec "CategoryDelete" resp r c hres hcode,
   deleteBody_spec "ClientDelete" resp r c hres hcode,
   deleteBody_spec "TagDelete" resp r c hres hcode,
   deleteBody_spec "UserGroupDelete" resp r c hres hcode⟩

/-- Witness for C5: on a concrete response with `result.resultCode = 0`,
`TagDelete` returns the `result` object. -/
theorem delete_ops_return_iff_resultCode_zero_witness :
    (SyspassClient.TagDelete (fun _ => wCreateResp) wState (.int 9)).1
      = .ret (some wCreateRes) :=
  ((delete_ops_return_iff_resultCode_zero wState wCreateResp wCreateRes 0
      (.int 9) rfl rfl).2.2.2.1.1).mpr rfl

/-- C8: when `AccountSearch` is called with `matchAll = None` and the
response's `result.count > 0`, if some entry of the `result.result` list
bears exactly the searched name (every entry carrying a `name`, so the
scan itself does not raise), the function returns `result.result[0]` — the
first element of the list, whatever the index of the matching entry. -/
theorem accountSearch_match_returns_first_element
    (s : SpState) (resp r : JsonVal) (c : Int) (xs : List JsonVal)
    (text : String) (count categoryId clientId : JsonVal)
    (hres : getKey resp "result" = some r)
    (hcount : getKey r "count" = some (.int c)) (hc : 0 < c)
    (hlist : getKey r "result" = some (.arr xs))
    (hdef : ∀ x ∈ xs, (nameEq text x).isSome)
    (hex : ∃ x ∈ xs, nameEq text x = some true) :
    (SyspassClient.AccountSearch (fun _ => resp) s text count categoryId
        clientId .null).1 = .ret xs.head? := by
  rw [accountSearch_body_eq _ _ _ _ _ _ _ _ (fun _ => rfl) hres]
  simp [hcount, pyGtZero, hc, hlist, searchLoopRes_match hdef hex]

def wEntryA : JsonVal := .obj [("name", .str "A")]

def wEntryB : JsonVal := .obj [("name", .str "B")]

def wTwoEntriesResp : JsonVal :=
  .obj [("result", .obj [("count", .int 2),
                         ("result", .arr [wEntryA, wEntryB])])]

/-- Witness for C8: searching "B" in a list whose second entry is named
"B" returns the first element, named "A" — not the matched entry. -/
theorem accountSearch_match_returns_first_element_witness :
    (SyspassClient.AccountSearch (fun _ => wTwoEntriesResp) wState "B"
        .null .null .null .null).1 = .ret (some wEntryA) :=
  accountSearch_match_returns_first_element wState wTwoEntriesResp
    (.obj [("count", .int 2), ("result", .arr [wEntryA, wEntryB])])
    2 [wEntryA, wEntryB] "B" .null .null .null rfl rfl (by decide) rfl
    (by intro x hx
        rcases List.mem_cons.mp hx with rfl | hx'
        · decide
        · rcases List.mem_cons.mp hx' with rfl | hx''
          · decide
          · cases hx'')
    ⟨wEntryB, List.mem_cons_of_mem _ (List.mem_cons_self _ _), by decide⟩

def wCaseResp : JsonVal :=
  .obj [("result", .obj [("count", .int 1),
                         ("result", .arr [.obj [("name", .str "Ansible")]])])]

/-- C9: `ClientSearch`, `TagSearch` and `UserGroupSearch` compare names
upper-cased while `AccountSearch` and `CategorySearch` compare exactly: a
search text differing from the stored name "Ansible" only in letter case
matches in the former three operations and in neither of the latter two. -/
theorem search_case_sensitivity_asymmetry :
    ("ANSIBLE" ≠ "Ansible" ∧ pyUpper "ANSIBLE" = pyUpper "Ansible") ∧
    (SyspassClient.ClientSearch (fun _ => wCaseResp) wState "ANSIBLE" .null).1
      = .ret (some (.obj [("name", .str "Ansible")])) ∧
    (SyspassClient.TagSearch (fun _ => wCaseResp) wState "ANSIBLE" .null).1
      = .ret (some (.obj [("name", .str "Ansible")])) ∧
    (SyspassClient.UserGroupSearch (fun _ => wCaseResp) wState "ANSIBLE"
        .null).1 = .ret (some (.obj [("name", .str "Ansible")])) ∧
    (SyspassClient.AccountSearch (fun _ => wCaseResp) wState "ANSIBLE"
        .null .null .null .null).1 = .ret none ∧
    (SyspassClient.CategorySearch (fun _ => wCaseResp) wState "ANSIBLE"
        .null).1 = .ret none :=
  ⟨⟨by decide, by decide⟩, rfl, rfl, rfl, rfl, rfl⟩

def wViewRR : JsonVal := .obj [("password", .str "p"), ("login", .str "l")]

def wViewRes : JsonVal :=
  .obj [("count", .int 1), ("itemId", .int 7), ("resultCode", .int 0),
        ("result", wViewRR)]

def wViewResp : JsonVal := .obj [("result", wViewRes)]

/-- C2 (counterexample): `AccountViewpass` on a successful concrete
response returns the bare `password` field, which differs from the
response's `result` substructure and from `result.result`: the returned
value is a field selection, not the result structure unchanged. -/
theorem accountViewpass_selects_password_field :
    (SyspassClient.AccountViewpass (fun _ => wViewResp) wState (.int 3)).1
      = .ret (some (.str "p")) ∧
    getKey wViewResp "result" = some wViewRes ∧
    getKey wViewRes "result" = some wViewRR ∧
    JsonVal.str "p" ≠ wViewRes ∧
    JsonVal.str "p" ≠ wViewRR :=
  ⟨rfl, rfl, rfl, by simp [wViewRes], by simp [wViewRR]⟩

/-- C2 (amended): each operation passes its parameters through into the
posted JSON-RPC request (shown for `AccountSearch`), and on success
returns a fixed projection of the response: `result.result` for
`AccountView` and for `AccountSearch` with `matchAll` set,
`result.result.password` for `AccountViewpass`, and the `result` object
for the create and delete operations (see the create/delete theorems) and
for `Backup`. -/
theorem ops_success_projections
    (s : SpState) (resp r rr p : JsonVal) (c : Int) (uId : JsonVal)
    (text : String) (count categoryId clientId matchAll : JsonVal)
    (hres : getKey resp "result" = some r)
    (hcount : getKey r "count" = some (.int c)) (hc : 0 < c)
    (hrr : getKey r "result" = some rr)
    (hpw : getKey rr "password" = some p)
    (hma : matchAll.isNull = false) :
    (SyspassClient.AccountSearch (fun _ => resp) s text count categoryId
        clientId matchAll).2.2 =
      [.obj [("jsonrpc", .str "2.0"),
             ("method", .str "account/search"),
             ("params", .obj [("authToken", .str s.API_KEY),
                              ("text", .str text),
                              ("count", count),
                              ("categoryId", categoryId),
                              ("clientId", clientId)]),
             ("id", .int s.rId)]] ∧
    (SyspassClient.AccountView (fun _ => resp) s uId).1 = .ret (some rr) ∧
    (SyspassClient.AccountViewpass (fun _ => resp) s uId).1
      = .ret (some p) ∧
    (SyspassClient.AccountSearch (fun _ => resp) s text count categoryId
        clientId matchAll).1 = .ret (some rr) ∧
    (SyspassClient.Backup (fun _ => resp) s).1 = .ret (some r) := by
  refine ⟨rfl, ?_, ?_, ?_, ?_⟩
  · simp [SyspassClient.AccountView, hres, hcount, pyGtZero, hc, hrr]
  · simp [SyspassClient.AccountViewpass, hres, hcount, pyGtZero, hc, hrr,
      hpw]
  · simp [SyspassClient.AccountSearch, hres, hcount, pyGtZero, hc, hrr, hma]
  · simp [SyspassClient.Backup, pyContains_of_getKey hres, hres]

/-- Witness for the amended C2: on a concrete successful response,
`AccountViewpass` returns the password value. -/
theorem ops_success_projections_witness :
    (SyspassClient.AccountViewpass (fun _ => wViewResp) wState (.int 4)).1
      = .ret (some (.str "p")) :=
  (ops_success_projections wState wViewResp wViewRes wViewRR (.str "p") 1
    (.int 4) "t" .null .null .null (.int 1) rfl rfl (by decide) rfl rfl
    rfl).2.2.1

/-- C6: every operation mutates no per-instance state other than the
request-id counter: the posted request's `id` field is the current `rId`,
the new state is the old one with `rId` incremented by exactly one (so
`API_KEY`, `API_URL` and `API_ACC_TOKPWD` are unchanged), and a fresh
client (`rId = 1`) has `rId = n + 1` after any sequence of `n`
operations. -/
theorem ops_touch_only_rId :
    (∀ (op : Op) (net : JsonVal → JsonVal) (s : SpState),
      (Op.run op net s).2.1 = { s with rId := s.rId + 1 } ∧
      (Op.run op net s).2.2.map (fun d => getKey d "id")
        = [some (.int s.rId)]) ∧
    (∀ (net : JsonVal → JsonVal) (ops : List Op) (key url tokpwd : String),
      (Op.runSeq net ops (SpState.init key url tokpwd)).rId
        = ops.length + 1) := by
  have hstep : ∀ (op : Op) (net : JsonVal → JsonVal) (s : SpState),
      (Op.run op net s).2.1 = { s with rId := s.rId + 1 } ∧
      (Op.run op net s).2.2.map (fun d => getKey d "id")
        = [some (.int s.rId)] := by
    intro op net s
    cases op <;> exact ⟨rfl, rfl⟩
  have hseq : ∀ (net : JsonVal → JsonVal) (ops : List Op) (s : SpState),
      (Op.runSeq net ops s).rId = s.rId + ops.length := by
    intro net ops
    induction ops with
    | nil => intro s; simp [Op.runSeq]
    | cons op rest ih =>
      intro s
      rw [Op.runSeq, ih, (hstep op net s).1]
      simp
      omega
  refine ⟨hstep, fun net ops key url tokpwd => ?_⟩
  rw [hseq]
  simp [SpState.init]
  omega

/-- C7: every operation posts exactly one request per invocation — for
every network behaviour, hence for every response shape, no operation
issues a second request. -/
theorem ops_post_exactly_one_request (op : Op) (net : JsonVal → JsonVal)
    (s : SpState) : (Op.run op net s).2.2.length = 1 := by
  cases op <;> rfl

/-- C3 (spec-modelled): for every requested length and character-class
selection whose combined alphabet is nonempty, the generated password has
exactly the requested length and every character of it belongs to one of
the requested classes. -/
theorem random_password_length_and_classes
    (classes : List (List Char)) (len : Nat) (rand : Nat → Nat)
    (h : classAlphabet classes ≠ []) :
    (random_password classes len rand).length = len ∧
    ∀ ch ∈ (random_password classes len rand).data,
      ∃ cls ∈ classes, ch ∈ cls := by
  constructor
  · show ((List.range len).map _).length = len
    simp
  · intro ch hch
    have hch' : ch ∈ (List.range len).map
        (fun i => (classAlphabet classes).getD
          (rand i % (classAlphabet classes).length) 'a') := hch
    rcases List.mem_map.mp hch' with ⟨i, _, rfl⟩
    have hlen : 0 < (classAlphabet classes).length := List.length_pos.mpr h
    have hidx : rand i % (classAlphabet classes).length
        < (classAlphabet classes).length := Nat.mod_lt _ hlen
    have hmem : (classAlphabet classes).getD
        (rand i % (classAlphabet classes).length) 'a'
        ∈ classAlphabet classes := by
      rw [List.getD_eq_getElem?_getD, List.getElem?_eq_getElem hidx,
        Option.getD_some]
      exact List.getElem_mem hidx
    exact List.mem_flatten.mp hmem

/-- Witness for C3: two classes, length 3, identity random source. -/
theorem random_password_length_and_classes_witness :
    (random_password [['a', 'b'], ['0']] 3 (fun i => i)).length = 3 ∧
    ∀ ch ∈ (random_password [['a', 'b'], ['0']] 3 (fun i => i)).data,
      ∃ cls ∈ [['a', 'b'], ['0']], ch ∈ cls :=
  random_password_length_and_classes [['a', 'b'], ['0']] 3 (fun i => i)
    (by decide)
